import Mathlib

/-!
# Verification of the SBI-Letter-Automation classification and batch pipeline

A shallow embedding of the core logic of the repository:

* `filterCustomersByRule` and its five issue-type rules
  (backend/routes/customers.js),
* the `POST /analyze` handler's AI-enhancement merge (same file),
* the batch-splitting loops of `POST /api/letters/bulk-generate` and
  `POST /api/email/bulk-send`,
* the per-customer loops of `POST /api/letters/generate` and
  `POST /api/email/send`.

JavaScript dynamic values that reach the rules are modelled by `JVal`
(null / number / string); numbers are modelled as rationals (the source
only ever compares and truncates them, never relies on IEEE rounding).
External collaborators (the date parser backing `new Date(string)`, the
Gemini scoring service, the template renderer, the PDF renderer and the
mailer) are parameters of the embedded functions, as the spec treats them
as external interfaces.
-/

/- Batteries seals the rational-number operations; reopening them lets
concrete inputs evaluate by `decide` during verification. -/
attribute [local semireducible] Rat.mul Rat.add Rat.sub Rat.inv

/-- A JavaScript value as it appears in a customer-record field:
`null`/`undefined` (both falsy, collapsed to `.null`), a number, or a
string. -/
inductive JVal where
  | null
  | num (q : ℚ)
  | str (s : String)
deriving DecidableEq

/-- JavaScript truthiness of a `JVal`: `null`/`undefined` and `0` and `""`
are falsy, everything else truthy. -/
def JVal.truthy : JVal → Bool
  | .null => false
  | .num q => decide (q ≠ 0)
  | .str s => decide (s ≠ "")

/-- Model of `a || b` on JVals: the left operand if truthy, otherwise the right. -/
def jsOr (a b : JVal) : JVal := if a.truthy then a else b

/-- A missing record field reads as `undefined`, modelled by `.null`. -/
def jvOf (f : Option JVal) : JVal := f.getD .null

/-- Model of `a || d` where `a` is an optional string field: missing and `""` are
falsy. -/
def jsOrStr (o : Option String) (d : String) : String :=
  match o with
  | some s => if s = "" then d else s
  | none => d

/-- Model of `a || d` where `a` is an optional number: missing and `0` are falsy. -/
def jsOrNum (o : Option ℚ) (d : ℚ) : ℚ :=
  match o with
  | some q => if q = 0 then d else q
  | none => d

/-- The numeric value of a digit list, most significant first. -/
def digitsVal (cs : List Char) : ℕ :=
  cs.foldl (fun acc c => acc * 10 + (c.toNat - 48)) 0

/-- JavaScript whitespace (the common cases) skipped by `parseFloat` and
`parseInt`. -/
def isJsWs (c : Char) : Bool :=
  c = ' ' || c = '\t' || c = '\n' || c = '\r' || c = '\x0b' || c = '\x0c'

/-- Powers of ten over ℚ, natural exponent (kept first-order so that
concrete inputs evaluate by kernel reduction). -/
def pow10N : ℕ → ℚ
  | 0 => 1
  | n + 1 => 10 * pow10N n

/-- Powers of ten over ℚ, integer exponent. -/
def pow10Z : ℤ → ℚ
  | .ofNat n => pow10N n
  | .negSucc n => 1 / pow10N (n + 1)

/-- Model of `parseFloat(s)` (prefix parse: optional sign, digits, optional
fraction, optional exponent; trailing garbage ignored). `none` models
`NaN`. `Infinity` literals are outside the model (no rule input uses
them). -/
def jsParseFloat (s : String) : Option ℚ :=
  let cs := s.toList.dropWhile isJsWs
  let sgn : ℚ := match cs with
    | '-' :: _ => -1
    | _ => 1
  let cs1 : List Char := match cs with
    | '-' :: r => r
    | '+' :: r => r
    | _ => cs
  let ip := cs1.takeWhile Char.isDigit
  let r1 := cs1.dropWhile Char.isDigit
  let fp : List Char := match r1 with
    | '.' :: r => r.takeWhile Char.isDigit
    | _ => []
  let r2 : List Char := match r1 with
    | '.' :: r => r.dropWhile Char.isDigit
    | _ => r1
  if ip.isEmpty && fp.isEmpty then none
  else
    let mantissa : ℚ := (digitsVal ip : ℚ) + (digitsVal fp : ℚ) / pow10N fp.length
    let e : ℤ := match r2 with
      | 'e' :: '-' :: d => if (d.takeWhile Char.isDigit).isEmpty then 0
          else -(digitsVal (d.takeWhile Char.isDigit) : ℤ)
      | 'E' :: '-' :: d => if (d.takeWhile Char.isDigit).isEmpty then 0
          else -(digitsVal (d.takeWhile Char.isDigit) : ℤ)
      | 'e' :: '+' :: d => (digitsVal (d.takeWhile Char.isDigit) : ℤ)
      | 'E' :: '+' :: d => (digitsVal (d.takeWhile Char.isDigit) : ℤ)
      | 'e' :: d => (digitsVal (d.takeWhile Char.isDigit) : ℤ)
      | 'E' :: d => (digitsVal (d.takeWhile Char.isDigit) : ℤ)
      | _ => 0
    some (sgn * mantissa * pow10Z e)

/-- Model of `parseInt(s, 10)` (prefix parse: optional sign then decimal digits).
`none` models `NaN`. -/
def jsParseInt (s : String) : Option ℤ :=
  let cs := s.toList.dropWhile isJsWs
  let sgn : ℤ := match cs with
    | '-' :: _ => -1
    | _ => 1
  let cs1 : List Char := match cs with
    | '-' :: r => r
    | '+' :: r => r
    | _ => cs
  let ds := cs1.takeWhile Char.isDigit
  if ds.isEmpty then none else some (sgn * (digitsVal ds : ℤ))

/-- Truncation toward zero, as JavaScript number-to-int conversions do
(`Int.div` is T-division: it rounds the quotient toward zero). -/
def jsTrunc (q : ℚ) : ℤ := Int.tdiv q.num (q.den : ℤ)

/-- Model of `parseFloat(v)` on a JVal. A number stringifies and re-parses to
itself (plain decimal printing assumed); `null` never reaches `parseFloat`
in the source because every call site guards with `|| 0`. -/
def jsParseFloatJV : JVal → Option ℚ
  | .null => none
  | .num q => some q
  | .str s => jsParseFloat s

/-- Model of `parseInt(v, 10)` on a JVal: a number stringifies and the integer part
is kept (truncation toward zero). -/
def jsParseIntJV : JVal → Option ℤ
  | .null => none
  | .num q => some (jsTrunc q)
  | .str s => jsParseInt s

/-- Model of `new Date(v)`, abstracted: a numeric argument is a millisecond
timestamp (truncated), a string is handed to the external date parser `p`
(`none` = Invalid Date). -/
def jsNewDate (p : String → Option ℤ) : JVal → Option ℤ
  | .num q => some (jsTrunc q)
  | .str s => p s
  | .null => none

/-- Whether the character sequence `needle` occurs contiguously inside
`hay` (used to model regex alternation `/a|b/` and `String.includes`). -/
def containsSeq (needle : List Char) : List Char → Bool
  | [] => needle.isEmpty
  | c :: rest => needle.isPrefixOf (c :: rest) || containsSeq needle rest

/-- ASCII lower-casing of one character (`String.toLowerCase` restricted
to the ASCII range, which covers every status and category literal the
rules compare against). -/
def lowerChar (c : Char) : Char :=
  if 65 ≤ c.toNat ∧ c.toNat ≤ 90 then Char.ofNat (c.toNat + 32) else c

/-- Model of `s.toLowerCase()` as a character list. -/
def toLowerL (s : String) : List Char := s.toList.map lowerChar

/-- Case-insensitive test used for `/expired|pending/i.test(kyc)` and for
`String.includes` after `.toLowerCase()`. -/
def containsCI (hay needle : String) : Bool :=
  containsSeq (toLowerL needle) (toLowerL hay)

/-- A customer record, with the canonical uppercase-snake-case fields the
rules read. The source also probes lower-case key variants
(`customer.balance` etc.); per the spec's data-model invariant records are
normalized to the canonical keys before classification, so the embedding
keeps one field per logical column. A missing field is `none`. -/
structure Customer where
  NAME : Option String := none
  ACCOUNT_NO : Option String := none
  BALANCE : Option JVal := none
  LAST_TRANSACTION : Option JVal := none
  EMAIL : Option String := none
  MOBILE : Option String := none
  KYC_STATUS : Option String := none
  OUTSTANDING_AMOUNT : Option JVal := none
  AGE : Option JVal := none
  ACCOUNT_TYPE : Option String := none
  CUSTOMER_CATEGORY : Option String := none
  DOC_STATUS : Option String := none
  DOC_EXPIRY_DAYS : Option JVal := none
  DAYS_TO_EXPIRY : Option JVal := none
  aiConfidence : Option ℚ := none
  aiPriority : Option String := none
  aiReason : Option String := none
deriving DecidableEq

/-- Model of `const bal = parseFloat(customer.BALANCE || 0) || 0`
(customers.js line 341). -/
def jsBalance (c : Customer) : ℚ :=
  (jsParseFloatJV (jsOr (jvOf c.BALANCE) (.num 0))).getD 0

/-- Lines 342-346 of customers.js:
`lastTxRaw = customer.LAST_TRANSACTION || null`;
`lastTransaction = lastTxRaw ? new Date(lastTxRaw) : null`;
`daysSince = lastTransaction && !isNaN(lastTransaction.getTime())
  ? Math.floor((currentDate - lastTransaction) / 86400000) : 9999`.
`parseDateStr` stands for string parsing by the `Date` constructor; `now`
is the current time in milliseconds; `Int.fdiv` is floor division, as
`Math.floor` of a real quotient. -/
def jsDaysSinceLastTransaction (parseDateStr : String → Option ℤ) (now : ℤ)
    (c : Customer) : ℤ :=
  if (jvOf c.LAST_TRANSACTION).truthy then
    match jsNewDate parseDateStr (jvOf c.LAST_TRANSACTION) with
    | some tx => Int.fdiv (now - tx) 86400000
    | none => 9999
  else 9999

/-- Model of `account_closure` case of `filterCustomersByRule`
(customers.js lines 340-348): matches iff
`bal <= 100 || daysSinceLastTransaction > 90`. -/
def accountClosureMatch (parseDateStr : String → Option ℤ) (now : ℤ)
    (c : Customer) : Bool :=
  decide (jsBalance c ≤ 100)
    || decide (jsDaysSinceLastTransaction parseDateStr now c > 90)

/-- Model of `kyc_update` case of `filterCustomersByRule`
(customers.js lines 350-355):
matches iff `!EMAIL || !MOBILE || /expired|pending/i.test(KYC_STATUS)`. -/
def kycUpdateMatch (c : Customer) : Bool :=
  let email := c.EMAIL.getD ""
  let mobile := c.MOBILE.getD ""
  let kyc := c.KYC_STATUS.getD ""
  decide (email = "") || decide (mobile = "")
    || containsCI kyc "expired" || containsCI kyc "pending"

/-- Model of `loan_default` case of `filterCustomersByRule`
(customers.js lines 357-360):
matches iff `parseFloat(OUTSTANDING_AMOUNT || 0) || 0 > 0`. -/
def loanDefaultMatch (c : Customer) : Bool :=
  let outstanding : ℚ :=
    (jsParseFloatJV (jsOr (jvOf c.OUTSTANDING_AMOUNT) (.num 0))).getD 0
  decide (outstanding > 0)

/-- Model of `fee_waiver` case of `filterCustomersByRule`
(customers.js lines 362-367):
matches iff `age > 60 || ACCOUNT_TYPE == "student" ||
CUSTOMER_CATEGORY.includes("senior")` (both lower-cased). -/
def feeWaiverMatch (c : Customer) : Bool :=
  let age : ℤ := (jsParseIntJV (jsOr (jvOf c.AGE) (.num 0))).getD 0
  let accType := toLowerL (c.ACCOUNT_TYPE.getD "")
  let custCat := c.CUSTOMER_CATEGORY.getD ""
  decide (age > 60) || decide (accType = "student".toList) || containsCI custCat "senior"

/-- Model of `days = parseInt(customer.DOC_EXPIRY_DAYS || 9999, 10) || 9999`
(customers.js line 371). Note the trailing `|| 9999`: a parse result of
`0`, like any falsy field value, also yields 9999. -/
def jsDocExpiryDays (c : Customer) : ℤ :=
  match jsParseIntJV (jsOr (jvOf c.DOC_EXPIRY_DAYS) (.num 9999)) with
  | none => 9999
  | some k => if k = 0 then 9999 else k

/-- Model of `document_expiry` case of `filterCustomersByRule`
(customers.js lines 369-373):
`status = String(customer.DOC_STATUS || '').toLowerCase()`;
matches iff `status == "expiring" || status == "expired" || days <= 60`. -/
def documentExpiryMatch (c : Customer) : Bool :=
  decide (toLowerL (c.DOC_STATUS.getD "") = "expiring".toList)
    || decide (toLowerL (c.DOC_STATUS.getD "") = "expired".toList)
    || decide (jsDocExpiryDays c ≤ 60)

/-- The switch of `filterCustomersByRule` (customers.js lines 334-383):
per-customer match predicate keyed by the issue-type string; any string
outside the five known cases falls to the `default` branch and matches
nothing. -/
def ruleMatch (parseDateStr : String → Option ℤ) (now : ℤ)
    (issueType : String) (c : Customer) : Bool :=
  if issueType = "account_closure" then accountClosureMatch parseDateStr now c
  else if issueType = "kyc_update" then kycUpdateMatch c
  else if issueType = "loan_default" then loanDefaultMatch c
  else if issueType = "fee_waiver" then feeWaiverMatch c
  else if issueType = "document_expiry" then documentExpiryMatch c
  else false

/-- Model of `filterCustomersByRule(customers, issueType)`: keeps, in order, the
customers matched by the issue type's rule. -/
def filterCustomersByRule (parseDateStr : String → Option ℤ) (now : ℤ)
    (customers : List Customer) (issueType : String) : List Customer :=
  customers.filter (ruleMatch parseDateStr now issueType)

example : accountClosureMatch (fun _ => none) 0
    { BALANCE := some (.num 50) } = true := by decide
example : accountClosureMatch (fun _ => none) 0
    { BALANCE := some (.num 200), LAST_TRANSACTION := some (.num 0) } = true := by decide
example : kycUpdateMatch { EMAIL := some "a@b.com", MOBILE := some "9876543210" } = false := by
  decide
example :
    kycUpdateMatch { EMAIL := some "a@b.com", MOBILE := some "9876543210", KYC_STATUS := some "Pending" } = true := by
  decide
example : documentExpiryMatch { DAYS_TO_EXPIRY := some (.num 30) } = false := by decide
example : documentExpiryMatch { DOC_EXPIRY_DAYS := some (.num 30) } = true := by decide
example : documentExpiryMatch { DOC_EXPIRY_DAYS := some (.num 0) } = false := by decide
example : jsParseFloat "12.5abc" = some (25 / 2) := by decide
example : jsParseFloat "abc" = none := by decide
example : jsParseInt "  -42xy" = some (-42) := by decide

/-! ## Claim-side rule formulations

The following definitions restate the spec's rule descriptions word for
word, to be compared with the embedded code. `...Claim` definitions
follow the claim as written; `...Amended` definitions follow the claim
amended by exactly what the counterexamples force. -/

/-- The spec's reading of the balance: "the parsed BALANCE (unparsable or
missing defaulting to 0)". -/
def specBalance (c : Customer) : ℚ :=
  match c.BALANCE with
  | none => 0
  | some v => (jsParseFloatJV v).getD 0

/-- The spec's reading of days since last transaction (claim C1 as
stated): whole days between `now` and the parsed date; missing or
unparseable dates count as 9999 days. -/
def specDaysSinceClaim (parseDateStr : String → Option ℤ) (now : ℤ)
    (c : Customer) : ℤ :=
  match c.LAST_TRANSACTION with
  | none => 9999
  | some v =>
    match jsNewDate parseDateStr v with
    | some tx => Int.fdiv (now - tx) 86400000
    | none => 9999

/-- Claim C1 as stated: match iff balance ≤ 100 or days since last
transaction > 90, with missing/unparseable dates as 9999 days. -/
def accountClosureClaim (parseDateStr : String → Option ℤ) (now : ℤ)
    (c : Customer) : Bool :=
  decide (specBalance c ≤ 100)
    || decide (specDaysSinceClaim parseDateStr now c > 90)

/-- Days since last transaction as claim C1 must be amended: a
`LAST_TRANSACTION` that is missing, unparseable, or falsy (numeric 0 or
the empty string) counts as 9999 days. -/
def specDaysSinceAmended (parseDateStr : String → Option ℤ) (now : ℤ)
    (c : Customer) : ℤ :=
  match c.LAST_TRANSACTION with
  | none => 9999
  | some v =>
    if v.truthy then
      match jsNewDate parseDateStr v with
      | some tx => Int.fdiv (now - tx) 86400000
      | none => 9999
    else 9999

/-- Claim C1 amended: falsy raw date values are also treated as 9999 days
since last transaction. -/
def accountClosureAmended (parseDateStr : String → Option ℤ) (now : ℤ)
    (c : Customer) : Bool :=
  decide (specBalance c ≤ 100)
    || decide (specDaysSinceAmended parseDateStr now c > 90)

theorem jsBalance_eq_specBalance (c : Customer) : jsBalance c = specBalance c := by
  unfold jsBalance specBalance
  cases c.BALANCE with
  | none => rfl
  | some v =>
    cases v with
    | null => rfl
    | num q =>
      by_cases hq : q = 0
      · subst hq; rfl
      · simp [jvOf, jsOr, JVal.truthy, hq, jsParseFloatJV]
    | str s =>
      by_cases hs : s = ""
      · subst hs; rfl
      · simp [jvOf, jsOr, JVal.truthy, hs, jsParseFloatJV]

theorem jsDaysSince_eq_specDaysSinceAmended (parseDateStr : String → Option ℤ)
    (now : ℤ) (c : Customer) :
    jsDaysSinceLastTransaction parseDateStr now c =
      specDaysSinceAmended parseDateStr now c := by
  unfold jsDaysSinceLastTransaction specDaysSinceAmended
  cases c.LAST_TRANSACTION with
  | none => rfl
  | some v => rfl

/-- A customer whose balance is 200 and whose `LAST_TRANSACTION` field
holds the number 0 (the epoch millisecond timestamp, a perfectly
parseable date). -/
def lapsedRichCustomer : Customer :=
  { BALANCE := some (.num 200), LAST_TRANSACTION := some (.num 0) }

/-- C1 counterexample: at current time 0 (the epoch) the code matches
`lapsedRichCustomer` (the falsy raw value 0 short-circuits to 9999 days)
while the claim as stated does not (the parsed date gives 0 whole days,
and the balance is 200 > 100). -/
theorem accountClosureClaim_false_at_epoch :
    accountClosureMatch (fun _ => none) 0 lapsedRichCustomer = true ∧
    accountClosureClaim (fun _ => none) 0 lapsedRichCustomer = false := by
  decide

/-- C1 (amended): the `account_closure` rule matches exactly when the
parsed balance (missing/unparsable = 0) is ≤ 100 or the whole days since
the parsed `LAST_TRANSACTION` exceed 90, where a missing, unparseable, or
falsy (numeric 0 / empty string) raw date is treated as 9999 days. -/
theorem accountClosure_matches_amended_spec (parseDateStr : String → Option ℤ)
    (now : ℤ) (c : Customer) :
    accountClosureMatch parseDateStr now c =
      accountClosureAmended parseDateStr now c := by
  unfold accountClosureMatch accountClosureAmended
  rw [jsBalance_eq_specBalance, jsDaysSince_eq_specDaysSinceAmended]

/-- Days to document expiry as claim C6 states it: the `DAYS_TO_EXPIRY`
field parsed as an integer, defaulting to 9999 when missing or
unparsable. -/
def specDaysToExpiry (c : Customer) : ℤ :=
  match c.DAYS_TO_EXPIRY with
  | none => 9999
  | some v => (jsParseIntJV v).getD 9999

/-- Claim C6 as stated: match iff `DOC_STATUS` is (case-insensitively)
"expiring" or "expired", or `DAYS_TO_EXPIRY` (default 9999) ≤ 60. -/
def documentExpiryClaim (c : Customer) : Bool :=
  decide (toLowerL (c.DOC_STATUS.getD "") = "expiring".toList)
    || decide (toLowerL (c.DOC_STATUS.getD "") = "expired".toList)
    || decide (specDaysToExpiry c ≤ 60)

/-- Days to document expiry as claim C6 must be amended: the field the
code reads is `DOC_EXPIRY_DAYS`, and a value that is falsy, unparsable,
or parses to 0 is treated as 9999. -/
def specDocExpiryDaysAmended (c : Customer) : ℤ :=
  match c.DOC_EXPIRY_DAYS with
  | none => 9999
  | some v =>
    if v.truthy then
      match jsParseIntJV v with
      | none => 9999
      | some k => if k = 0 then 9999 else k
    else 9999

/-- Claim C6 amended: the days bound reads `DOC_EXPIRY_DAYS` with falsy,
unparsable, and zero values treated as 9999. -/
def documentExpiryAmended (c : Customer) : Bool :=
  decide (toLowerL (c.DOC_STATUS.getD "") = "expiring".toList)
    || decide (toLowerL (c.DOC_STATUS.getD "") = "expired".toList)
    || decide (specDocExpiryDaysAmended c ≤ 60)

theorem jsDocExpiryDays_eq_specAmended (c : Customer) :
    jsDocExpiryDays c = specDocExpiryDaysAmended c := by
  unfold jsDocExpiryDays specDocExpiryDaysAmended
  cases c.DOC_EXPIRY_DAYS with
  | none => rfl
  | some v =>
    cases v with
    | null => rfl
    | num q =>
      by_cases hq : q = 0
      · subst hq; rfl
      · simp [jvOf, jsOr, JVal.truthy, hq, jsParseIntJV]
    | str s =>
      by_cases hs : s = ""
      · subst hs; rfl
      · simp [jvOf, jsOr, JVal.truthy, hs, jsParseIntJV]

/-- A customer whose `DAYS_TO_EXPIRY` column (the one documented in the
validation schema) says the document expires in 30 days. -/
def expiringSoonCustomer : Customer := { DAYS_TO_EXPIRY := some (.num 30) }

/-- C6 counterexample: the claim as stated matches `expiringSoonCustomer`
(30 ≤ 60), but the code does not — it reads `DOC_EXPIRY_DAYS`, which is
absent, so its days value is 9999. -/
theorem documentExpiryClaim_false_on_daysToExpiry :
    documentExpiryMatch expiringSoonCustomer = false ∧
    documentExpiryClaim expiringSoonCustomer = true := by
  decide

/-- C6 (amended): the `document_expiry` rule matches exactly when
`DOC_STATUS` is case-insensitively "expiring" or "expired", or the
`DOC_EXPIRY_DAYS` field — with missing, falsy, unparsable, or
zero-parsing values treated as 9999 — is ≤ 60. -/
theorem documentExpiry_matches_amended_spec (c : Customer) :
    documentExpiryMatch c = documentExpiryAmended c := by
  unfold documentExpiryMatch documentExpiryAmended
  rw [jsDocExpiryDays_eq_specAmended]

/-- Claim C7 as stated: match iff `EMAIL` empty/missing, or `MOBILE`
empty/missing, or `KYC_STATUS` matches `/expired|pending/i`, or
`KYC_STATUS` is empty/missing. -/
def kycUpdateClaim (c : Customer) : Bool :=
  decide (c.EMAIL.getD "" = "") || decide (c.MOBILE.getD "" = "")
    || containsCI (c.KYC_STATUS.getD "") "expired"
    || containsCI (c.KYC_STATUS.getD "") "pending"
    || decide (c.KYC_STATUS.getD "" = "")

/-- Claim C7 amended: the empty/missing-`KYC_STATUS` disjunct is dropped
(the regex does not match the empty string). -/
def kycUpdateAmended (c : Customer) : Bool :=
  decide (c.EMAIL.getD "" = "") || decide (c.MOBILE.getD "" = "")
    || containsCI (c.KYC_STATUS.getD "") "expired"
    || containsCI (c.KYC_STATUS.getD "") "pending"

/-- A customer with both contact channels present and no `KYC_STATUS`
field at all. -/
def completeContactCustomer : Customer :=
  { EMAIL := some "amit@example.com", MOBILE := some "9876543210" }

/-- C7 counterexample: the claim says `completeContactCustomer` matches
(missing `KYC_STATUS`), but the code does not —
`/expired|pending/i.test('')` is false. -/
theorem kycUpdateClaim_false_on_missing_status :
    kycUpdateMatch completeContactCustomer = false ∧
    kycUpdateClaim completeContactCustomer = true := by
  decide

/-- C7 (amended): the `kyc_update` rule matches exactly when `EMAIL` is
empty or missing, or `MOBILE` is empty or missing, or `KYC_STATUS`
contains "expired" or "pending" case-insensitively; an empty or missing
`KYC_STATUS` does not by itself make a customer match. -/
theorem kycUpdate_matches_amended_spec (c : Customer) :
    kycUpdateMatch c = kycUpdateAmended c := by
  unfold kycUpdateMatch kycUpdateAmended
  rfl

/-! ## Batch Splitter

`for (let i = 0; i < customers.length; i += batchSize)
   batches.push(customers.slice(i, i + batchSize));`
appears verbatim in the bulk-generate (letters route, lines 406-408) and
bulk-send (email route, lines 663-665) handlers. Validation bounds
`batchSize ≥ 1`; `batchSize = 0`, on which the source loop would never
terminate, is mapped to `[]` and is outside every claim. -/

def splitIntoBatches {α : Type} (batchSize : ℕ) (items : List α) : List (List α) :=
  if h : batchSize = 0 then []
  else
    match items with
    | [] => []
    | x :: xs =>
      (x :: xs).take batchSize :: splitIntoBatches batchSize ((x :: xs).drop batchSize)
termination_by items.length
decreasing_by
  simp only [List.length_drop, List.length_cons]
  omega

theorem splitIntoBatches_nil {α : Type} (n : ℕ) :
    splitIntoBatches n ([] : List α) = [] := by
  rw [splitIntoBatches]
  split <;> rfl

theorem splitIntoBatches_cons {α : Type} (n : ℕ) (hn : n ≠ 0) (x : α) (xs : List α) :
    splitIntoBatches n (x :: xs) =
      (x :: xs).take n :: splitIntoBatches n ((x :: xs).drop n) := by
  rw [splitIntoBatches]
  simp [hn]

theorem splitIntoBatches_flatten {α : Type} (n : ℕ) (hn : n ≠ 0) (l : List α) :
    (splitIntoBatches n l).flatten = l := by
  cases l with
  | nil => rw [splitIntoBatches_nil]; rfl
  | cons x xs =>
    rw [splitIntoBatches_cons n hn]
    have ih := splitIntoBatches_flatten n hn ((x :: xs).drop n)
    rw [List.flatten_cons, ih]
    exact List.take_append_drop n (x :: xs)
termination_by l.length
decreasing_by
  simp only [List.length_drop, List.length_cons]
  omega

theorem splitIntoBatches_ne_nil {α : Type} (n : ℕ) (hn : n ≠ 0) (x : α) (xs : List α) :
    splitIntoBatches n (x :: xs) ≠ [] := by
  rw [splitIntoBatches_cons n hn]
  simp

theorem splitIntoBatches_length_le {α : Type} (n : ℕ) (hn : n ≠ 0) (l : List α) :
    ∀ b ∈ splitIntoBatches n l, b.length ≤ n := by
  cases l with
  | nil => simp [splitIntoBatches_nil]
  | cons x xs =>
    rw [splitIntoBatches_cons n hn]
    intro b hb
    rcases List.mem_cons.mp hb with rfl | hb2
    · simp [List.length_take]
    · exact splitIntoBatches_length_le n hn ((x :: xs).drop n) b hb2
termination_by l.length
decreasing_by
  simp only [List.length_drop, List.length_cons]
  omega

theorem splitIntoBatches_dropLast_length {α : Type} (n : ℕ) (hn : n ≠ 0) (l : List α) :
    ∀ b ∈ (splitIntoBatches n l).dropLast, b.length = n := by
  cases l with
  | nil => simp [splitIntoBatches_nil]
  | cons x xs =>
    rw [splitIntoBatches_cons n hn]
    by_cases hd : (x :: xs).drop n = []
    · rw [hd, splitIntoBatches_nil]
      simp
    · have hlt : n < (x :: xs).length := by
        by_contra hle
        exact hd (List.drop_eq_nil_of_le (Nat.le_of_not_lt hle))
      have hne : splitIntoBatches n ((x :: xs).drop n) ≠ [] := by
        cases hdrop : (x :: xs).drop n with
        | nil => exact absurd hdrop hd
        | cons y ys => exact splitIntoBatches_ne_nil n hn y ys
      rw [List.dropLast_cons_of_ne_nil hne]
      intro b hb
      rcases List.mem_cons.mp hb with rfl | hb2
      · simp only [List.length_take, List.length_cons] at hlt ⊢
        omega
      · exact splitIntoBatches_dropLast_length n hn ((x :: xs).drop n) b hb2
termination_by l.length
decreasing_by
  simp only [List.length_drop, List.length_cons]
  omega

/-- C2: for every non-empty item list and every batch size n ≥ 1,
flattening the batches reconstructs the original list in order; every
batch holds at most n items; and every batch except possibly the last
holds exactly n items. -/
theorem split_flatten_reconstructs {α : Type} (items : List α) (n : ℕ)
    (hn : 1 ≤ n) (hne : items ≠ []) :
    (splitIntoBatches n items).flatten = items ∧
    (∀ b ∈ splitIntoBatches n items, b.length ≤ n) ∧
    (∀ b ∈ (splitIntoBatches n items).dropLast, b.length = n) :=
  ⟨splitIntoBatches_flatten n (by omega) items,
   splitIntoBatches_length_le n (by omega) items,
   splitIntoBatches_dropLast_length n (by omega) items⟩

/-- C2 witness: the theorem instantiated at `[1,2,3,4,5]` with batch
size 2. -/
theorem split_flatten_reconstructs_witness :
    (splitIntoBatches 2 [1, 2, 3, 4, 5]).flatten = [1, 2, 3, 4, 5] ∧
    (∀ b ∈ splitIntoBatches 2 [1, 2, 3, 4, 5], b.length ≤ 2) ∧
    (∀ b ∈ (splitIntoBatches 2 [1, 2, 3, 4, 5]).dropLast, b.length = 2) :=
  split_flatten_reconstructs [1, 2, 3, 4, 5] 2 (by decide) (by decide)

/-! ## Email dispatch (`POST /api/email/send`, email route lines 495-588)

The mailer collaborator (`emailService.sendLetter`) is a parameter: it
either succeeds or throws with a message. Subject, content, issue type
and options are loop-invariant and folded into the collaborator. Wall
clock values (`sentAt`, `processingTimeMs`) and the inter-item delay are
outside the model. -/

/-- Model of `customer.ACCOUNT_NO || customer.NAME` used as the result key. -/
def jsAccountOrName (c : Customer) : String :=
  jsOrStr c.ACCOUNT_NO (c.NAME.getD "")

structure EmailResult where
  customer : String
  email : String
  status : String
  errorMsg : Option String := none
  reason : Option String := none
deriving DecidableEq

/-- One iteration of the send loop (email route lines 513-554): a falsy
`EMAIL` yields a skipped result without invoking the mailer; otherwise
the mailer outcome yields a sent or failed result. -/
def emailResultFor (mailer : Customer → Except String Unit) (c : Customer) : EmailResult :=
  match c.EMAIL with
  | none =>
    { customer := jsAccountOrName c, email := "N/A", status := "skipped",
      reason := some "No email address provided" }
  | some e =>
    if e = "" then
      { customer := jsAccountOrName c, email := "N/A", status := "skipped",
        reason := some "No email address provided" }
    else
      match mailer c with
      | .ok _ => { customer := jsAccountOrName c, email := e, status := "sent" }
      | .error msg =>
        { customer := jsAccountOrName c, email := e, status := "failed",
          errorMsg := some msg }

/-- The send loop: one result pushed per input customer, in order. -/
def sendEmailsLoop (mailer : Customer → Except String Unit) :
    List Customer → List EmailResult
  | [] => []
  | c :: rest => emailResultFor mailer c :: sendEmailsLoop mailer rest

structure EmailStats where
  total : ℕ
  sent : ℕ
  failed : ℕ
  skipped : ℕ
deriving DecidableEq

/-- The handler's results plus statistics (email route lines 556-563):
`total = customers.length`, other counters by filtering the results. -/
def sendEmails (mailer : Customer → Except String Unit)
    (customers : List Customer) : List EmailResult × EmailStats :=
  let results := sendEmailsLoop mailer customers
  (results,
   { total := customers.length,
     sent := (results.filter (fun r => r.status == "sent")).length,
     failed := (results.filter (fun r => r.status == "failed")).length,
     skipped := (results.filter (fun r => r.status == "skipped")).length })

theorem sendEmailsLoop_eq_map (mailer : Customer → Except String Unit)
    (cs : List Customer) :
    sendEmailsLoop mailer cs = cs.map (emailResultFor mailer) := by
  induction cs with
  | nil => rfl
  | cons c rest ih => simp [sendEmailsLoop, ih]

theorem emailResultFor_status (mailer : Customer → Except String Unit) (c : Customer) :
    (emailResultFor mailer c).status = "sent" ∨
    (emailResultFor mailer c).status = "failed" ∨
    (emailResultFor mailer c).status = "skipped" := by
  unfold emailResultFor
  cases c.EMAIL with
  | none => simp
  | some e =>
    by_cases he : e = ""
    · simp [he]
    · cases mailer c <;> simp [he]

theorem sendEmailsLoop_counts (mailer : Customer → Except String Unit)
    (cs : List Customer) :
    ((sendEmailsLoop mailer cs).filter (fun r => r.status == "sent")).length +
      ((sendEmailsLoop mailer cs).filter (fun r => r.status == "failed")).length +
      ((sendEmailsLoop mailer cs).filter (fun r => r.status == "skipped")).length =
      cs.length := by
  induction cs with
  | nil => rfl
  | cons c rest ih =>
    simp only [sendEmailsLoop, List.filter_cons, List.length_cons]
    rcases emailResultFor_status mailer c with h | h | h <;>
      simp only [h] <;> simp <;> omega

/-- C10: for every customer list and every mailer behaviour, the dispatch
produces exactly one result per input customer, and the statistics
satisfy `total = |input| = sent + failed + skipped`, each counter being
the number of results with that status. -/
theorem sendEmails_stats_invariant (mailer : Customer → Except String Unit)
    (customers : List Customer) :
    ((sendEmails mailer customers).1).length = customers.length ∧
    (sendEmails mailer customers).2.total = customers.length ∧
    (sendEmails mailer customers).2.total =
      (sendEmails mailer customers).2.sent + (sendEmails mailer customers).2.failed +
        (sendEmails mailer customers).2.skipped ∧
    (sendEmails mailer customers).2.sent =
      (((sendEmails mailer customers).1).filter (fun r => r.status == "sent")).length ∧
    (sendEmails mailer customers).2.failed =
      (((sendEmails mailer customers).1).filter (fun r => r.status == "failed")).length ∧
    (sendEmails mailer customers).2.skipped =
      (((sendEmails mailer customers).1).filter (fun r => r.status == "skipped")).length := by
  have hc := sendEmailsLoop_counts mailer customers
  refine ⟨?_, rfl, ?_, rfl, rfl, rfl⟩
  · simp [sendEmails, sendEmailsLoop_eq_map mailer customers]
  · simp only [sendEmails]
    omega

/-- A customer with account "A1" and a working address. -/
def custA1 : Customer :=
  { ACCOUNT_NO := some "A1", NAME := some "Asha", EMAIL := some "a1@example.com" }

/-- A customer with account "A2", the one the failing mailer rejects. -/
def custA2 : Customer :=
  { ACCOUNT_NO := some "A2", NAME := some "Binod", EMAIL := some "a2@example.com" }

/-- A customer with account "A3" and a working address. -/
def custA3 : Customer :=
  { ACCOUNT_NO := some "A3", NAME := some "Chitra", EMAIL := some "a3@example.com" }

/-- A mailer that throws exactly for account "A2" and succeeds otherwise. -/
def failingSecondMailer : Customer → Except String Unit :=
  fun c => if c.ACCOUNT_NO = some "A2" then .error "SMTP connection refused" else .ok ()

/-- C3: each result entry depends only on its own customer (so one
mailer failure is recorded for that customer alone and later customers
are still processed), and on the concrete 3-customer scenario in which
the mailer throws for the second customer the statistics are
`{total := 3, sent := 2, failed := 1, skipped := 0}` with results in
input order. -/
theorem email_failure_isolated :
    (∀ (mailer : Customer → Except String Unit) (customers : List Customer),
      (sendEmails mailer customers).1 = customers.map (emailResultFor mailer)) ∧
    (sendEmails failingSecondMailer [custA1, custA2, custA3]).2 =
      { total := 3, sent := 2, failed := 1, skipped := 0 } ∧
    (sendEmails failingSecondMailer [custA1, custA2, custA3]).1 =
      [{ customer := "A1", email := "a1@example.com", status := "sent" },
       { customer := "A2", email := "a2@example.com", status := "failed",
         errorMsg := some "SMTP connection refused" },
       { customer := "A3", email := "a3@example.com", status := "sent" }] := by
  refine ⟨fun mailer customers => sendEmailsLoop_eq_map mailer customers, ?_, ?_⟩ <;> decide

/-! ## Letter generation (`POST /api/letters/generate`, letters route lines 223-302)

The template renderer (`generateLetterContent`) and PDF renderer
(`pdfService.generateLetterPDF`) are parameters; the PDF byte buffer is
modelled as a string and its base64 transcription is abstracted to the
identity. -/

structure LetterData where
  subject : String
  content : String
  urgency : Option String := none
deriving DecidableEq

structure LetterResult where
  customerId : String
  customerName : Option String
  subject : String
  content : String
  urgency : String
  pdfBase64 : Option String := none
  pdfSize : Option ℕ := none
  pdfError : Option String := none
deriving DecidableEq

structure LetterError where
  customer : String
  errorMsg : String
deriving DecidableEq

/-- Model of `customerId: customer.ACCOUNT_NO || i` (a falsy account number falls
back to the loop index, rendered as a string). -/
def customerIdOf (c : Customer) (i : ℕ) : String :=
  match c.ACCOUNT_NO with
  | some a => if a = "" then toString i else a
  | none => toString i

/-- The per-customer body of the generate loop after a successful
template render (letters route lines 240-259): build the letter result;
if PDFs were requested, attach the buffer on success or only a `pdfError`
message on failure — the subject and content are kept either way. -/
def mkLetterResult (renderPDF : String → Customer → Except String String)
    (generatePDF : Bool) (i : ℕ) (c : Customer) (ld : LetterData) : LetterResult :=
  let base : LetterResult :=
    { customerId := customerIdOf c i, customerName := c.NAME,
      subject := ld.subject, content := ld.content,
      urgency := jsOrStr ld.urgency "medium" }
  if generatePDF then
    match renderPDF ld.content c with
    | .ok buf => { base with pdfBase64 := some buf, pdfSize := some buf.length }
    | .error e => { base with pdfError := some e }
  else base

/-- The generate loop from index `i`: a failed template render pushes an
error entry; a successful one pushes a letter result (letters route lines
233-270). -/
def generateLettersFrom (renderTemplate : Customer → Except String LetterData)
    (renderPDF : String → Customer → Except String String) (generatePDF : Bool) :
    ℕ → List Customer → List LetterResult × List LetterError
  | _, [] => ([], [])
  | i, c :: rest =>
    let acc := generateLettersFrom renderTemplate renderPDF generatePDF (i + 1) rest
    match renderTemplate c with
    | .ok ld => (mkLetterResult renderPDF generatePDF i c ld :: acc.1, acc.2)
    | .error e => (acc.1, { customer := jsAccountOrName c, errorMsg := e } :: acc.2)

/-- The `POST /api/letters/generate` loop over all customers. -/
def generateLetters (renderTemplate : Customer → Except String LetterData)
    (renderPDF : String → Customer → Except String String) (generatePDF : Bool)
    (customers : List Customer) : List LetterResult × List LetterError :=
  generateLettersFrom renderTemplate renderPDF generatePDF 0 customers

theorem generateLettersFrom_letters (renderTemplate : Customer → Except String LetterData)
    (renderPDF : String → Customer → Except String String) (generatePDF : Bool)
    (cs : List Customer) :
    ∀ i, (generateLettersFrom renderTemplate renderPDF generatePDF i cs).1 =
      (List.enumFrom i cs).filterMap
        (fun p => match renderTemplate p.2 with
          | .ok ld => some (mkLetterResult renderPDF generatePDF p.1 p.2 ld)
          | .error _ => none) := by
  induction cs with
  | nil => intro i; rfl
  | cons c rest ih =>
    intro i
    simp only [generateLettersFrom, List.enumFrom, List.filterMap_cons]
    cases h : renderTemplate c with
    | ok ld => simp [h, ih]
    | error e => simp [h, ih]

theorem generateLettersFrom_errors (renderTemplate : Customer → Except String LetterData)
    (renderPDF : String → Customer → Except String String) (generatePDF : Bool)
    (cs : List Customer) :
    ∀ i, (generateLettersFrom renderTemplate renderPDF generatePDF i cs).2 =
      cs.filterMap
        (fun c => match renderTemplate c with
          | .ok _ => none
          | .error e => some { customer := jsAccountOrName c, errorMsg := e }) := by
  induction cs with
  | nil => intro i; rfl
  | cons c rest ih =>
    intro i
    simp only [generateLettersFrom, List.filterMap_cons]
    cases h : renderTemplate c with
    | ok ld => simp [h, ih]
    | error e => simp [h, ih]

theorem generateLettersFrom_total (renderTemplate : Customer → Except String LetterData)
    (renderPDF : String → Customer → Except String String) (generatePDF : Bool)
    (cs : List Customer) :
    ∀ i, (generateLettersFrom renderTemplate renderPDF generatePDF i cs).1.length +
      (generateLettersFrom renderTemplate renderPDF generatePDF i cs).2.length =
      cs.length := by
  induction cs with
  | nil => intro i; rfl
  | cons c rest ih =>
    intro i
    simp only [generateLettersFrom]
    cases h : renderTemplate c with
    | ok ld => simp only [h]; simp; have := ih (i + 1); omega
    | error e => simp only [h]; simp; have := ih (i + 1); omega

/-- C9: a PDF-rendering failure leaves the letter in the successful list
with its subject and content and a `pdfError` message (first conjunct);
the error list holds exactly the customers whose template render failed
(so a PDF failure is never counted as a failed item), the letters list
holds exactly the template successes in input order, and every customer
lands in exactly one of the two lists. -/
theorem pdf_failure_keeps_letter :
    (∀ (renderPDF : String → Customer → Except String String) (i : ℕ) (c : Customer)
        (ld : LetterData) (e : String), renderPDF ld.content c = .error e →
      mkLetterResult renderPDF true i c ld =
        { customerId := customerIdOf c i, customerName := c.NAME,
          subject := ld.subject, content := ld.content,
          urgency := jsOrStr ld.urgency "medium",
          pdfBase64 := none, pdfSize := none, pdfError := some e }) ∧
    (∀ (renderTemplate : Customer → Except String LetterData)
        (renderPDF : String → Customer → Except String String)
        (customers : List Customer),
      (generateLetters renderTemplate renderPDF true customers).1 =
        (List.enumFrom 0 customers).filterMap
          (fun p => match renderTemplate p.2 with
            | .ok ld => some (mkLetterResult renderPDF true p.1 p.2 ld)
            | .error _ => none) ∧
      (generateLetters renderTemplate renderPDF true customers).2 =
        customers.filterMap
          (fun c => match renderTemplate c with
            | .ok _ => none
            | .error e => some { customer := jsAccountOrName c, errorMsg := e }) ∧
      (generateLetters renderTemplate renderPDF true customers).1.length +
        (generateLetters renderTemplate renderPDF true customers).2.length =
        customers.length) := by
  constructor
  · intro renderPDF i c ld e h
    simp [mkLetterResult, h]
  · intro renderTemplate renderPDF customers
    exact ⟨generateLettersFrom_letters renderTemplate renderPDF true customers 0,
      generateLettersFrom_errors renderTemplate renderPDF true customers 0,
      generateLettersFrom_total renderTemplate renderPDF true customers 0⟩

/-- C9 witness: a concrete PDF failure for `custA1` keeps the rendered
subject and content and records only `pdfError`. -/
theorem pdf_failure_keeps_letter_witness :
    mkLetterResult (fun _ _ => Except.error "PDF generation failed: out of memory") true 0
        custA1 { subject := "Account Closure Notice", content := "Dear customer" } =
      { customerId := "A1", customerName := some "Asha",
        subject := "Account Closure Notice", content := "Dear customer",
        urgency := "medium", pdfBase64 := none, pdfSize := none,
        pdfError := some "PDF generation failed: out of memory" } :=
  pdf_failure_keeps_letter.1 (fun _ _ => Except.error "PDF generation failed: out of memory")
    0 custA1 { subject := "Account Closure Notice", content := "Dear customer" }
    "PDF generation failed: out of memory" rfl

/-! ## Classification with optional AI enhancement
(`POST /analyze`, customers.js lines 243-331)

The scoring collaborator (`aiService.analyzeCustomers`) is a parameter:
it either throws with a message, or returns a response whose `analysis`
field is a list or (malformed response) is not — modelled by
`Option (List AIEntry)`. The `slice(0, 100)` cap only limits what is
sent to the collaborator, not what is merged, so it lives inside the
collaborator parameter. `useAI` folds together `options.useAI` and the
presence of `GEMINI_API_KEY`. Summary/insight fields and wall-clock
times are outside the claims and omitted. -/

structure AIEntry where
  account_no : String
  confidence : ℚ
  priority : String
  reason : String
deriving DecidableEq

structure AIResponse where
  analysis : Option (List AIEntry)
deriving DecidableEq

structure EnrichedCustomer where
  base : Customer
  aiConfidence : ℚ
  aiPriority : String
  aiReason : String
deriving DecidableEq

/-- The `customers` field of the analysis result: the rule-filtered list
as is, or the AI-merged enrichment of it. -/
inductive ResultCustomers where
  | plain (cs : List Customer)
  | enriched (cs : List EnrichedCustomer)
deriving DecidableEq

structure AnalysisResult where
  totalCustomers : ℕ
  ruleBasedMatches : ℕ
  finalMatches : ℕ
  customers : ResultCustomers
  aiEnhanced : Bool
  aiError : Option String
  confidence : String
deriving DecidableEq

/-- Model of `getAccountValue(customer) || ''` (canonical key model). -/
def getAccountValue (c : Customer) : String := c.ACCOUNT_NO.getD ""

/-- The `aiMap` built on customers.js lines 283-287: entries keyed by
lower-cased nonempty account number, later entries overwriting earlier
ones, looked up by lower-cased customer account. -/
def aiLookup (entries : List AIEntry) (acct : List Char) : Option AIEntry :=
  (entries.filter (fun a =>
    decide (toLowerL a.account_no = acct) && decide (toLowerL a.account_no ≠ []))).getLast?

/-- The merge on customers.js lines 289-298: an AI entry supplies
confidence/priority/reason; otherwise the customer's own fields with the
falsy-defaults `0.8` / "medium" / "Rule-based match". -/
def enrichCustomer (entries : List AIEntry) (c : Customer) : EnrichedCustomer :=
  match aiLookup entries (toLowerL (getAccountValue c)) with
  | some a =>
    { base := c, aiConfidence := a.confidence, aiPriority := a.priority,
      aiReason := a.reason }
  | none =>
    { base := c, aiConfidence := jsOrNum c.aiConfidence (8 / 10),
      aiPriority := jsOrStr c.aiPriority "medium",
      aiReason := jsOrStr c.aiReason "Rule-based match" }

/-- The `POST /analyze` handler after validation: rule-based filtering,
then — when AI is enabled and some rule matches exist — the collaborator
outcome is merged: a thrown error only sets `aiError` (line 304-307); a
response without an `analysis` array is ignored; a list response
replaces `customers` by the enriched list and recomputes `finalMatches`
as the count with `aiConfidence >= (options.minConfidence || 0.7)`
(line 301). -/
def analyze (parseDateStr : String → Option ℤ) (now : ℤ) (useAI : Bool)
    (aiOutcome : Except String AIResponse) (minConfidence : Option ℚ)
    (customers : List Customer) (issueType : String) : AnalysisResult :=
  let ruleFiltered := filterCustomersByRule parseDateStr now customers issueType
  let base : AnalysisResult :=
    { totalCustomers := customers.length, ruleBasedMatches := ruleFiltered.length,
      finalMatches := ruleFiltered.length, customers := .plain ruleFiltered,
      aiEnhanced := false, aiError := none, confidence := "rule-based" }
  if useAI && decide (0 < ruleFiltered.length) then
    match aiOutcome with
    | .error e => { base with aiError := some e }
    | .ok resp =>
      match resp.analysis with
      | none => base
      | some entries =>
        let enriched := ruleFiltered.map (enrichCustomer entries)
        { base with
          aiEnhanced := true,
          customers := .enriched enriched,
          finalMatches := (enriched.filter
            (fun ec => decide (jsOrNum minConfidence (7 / 10) ≤ ec.aiConfidence))).length,
          confidence := "ai-enhanced" }
  else base

def getEnriched : ResultCustomers → List EnrichedCustomer
  | .plain _ => []
  | .enriched cs => cs

theorem enrichCustomer_base (entries : List AIEntry) (c : Customer) :
    (enrichCustomer entries c).base = c := by
  unfold enrichCustomer
  cases aiLookup entries (toLowerL (getAccountValue c)) <;> rfl

/-- C8: an issue type outside the five-value enumeration matches no
customer: the filter returns the empty list and the analysis completes
normally with zero matches (no error value is produced anywhere). -/
theorem unknown_issueType_empty (parseDateStr : String → Option ℤ) (now : ℤ)
    (useAI : Bool) (aiOutcome : Except String AIResponse) (minConfidence : Option ℚ)
    (customers : List Customer) (issueType : String)
    (h : issueType ∉ ["account_closure", "kyc_update", "loan_default",
      "fee_waiver", "document_expiry"]) :
    filterCustomersByRule parseDateStr now customers issueType = [] ∧
    (analyze parseDateStr now useAI aiOutcome minConfidence customers issueType).customers =
      .plain [] ∧
    (analyze parseDateStr now useAI aiOutcome minConfidence customers issueType).finalMatches = 0 ∧
    (analyze parseDateStr now useAI aiOutcome minConfidence customers issueType).ruleBasedMatches = 0 ∧
    (analyze parseDateStr now useAI aiOutcome minConfidence customers issueType).aiError = none := by
  simp only [List.mem_cons, List.mem_singleton] at h
  push_neg at h
  obtain ⟨h1, h2, h3, h4, h5, -⟩ := h
  have hm : ∀ c, ruleMatch parseDateStr now issueType c = false := by
    intro c
    unfold ruleMatch
    rw [if_neg h1, if_neg h2, if_neg h3, if_neg h4, if_neg h5]
  have hf : filterCustomersByRule parseDateStr now customers issueType = [] := by
    unfold filterCustomersByRule
    exact List.filter_eq_nil_iff.mpr (fun c _ => by simp [hm c])
  refine ⟨hf, ?_, ?_, ?_, ?_⟩ <;> simp [analyze, hf]

/-- C8 witness: the theorem at the unknown issue type "loan_restructure"
over a one-customer list. -/
theorem unknown_issueType_empty_witness :
    filterCustomersByRule (fun _ => none) 0 [custA1] "loan_restructure" = [] ∧
    (analyze (fun _ => none) 0 false (.ok { analysis := none }) none [custA1]
      "loan_restructure").customers = .plain [] ∧
    (analyze (fun _ => none) 0 false (.ok { analysis := none }) none [custA1]
      "loan_restructure").finalMatches = 0 ∧
    (analyze (fun _ => none) 0 false (.ok { analysis := none }) none [custA1]
      "loan_restructure").ruleBasedMatches = 0 ∧
    (analyze (fun _ => none) 0 false (.ok { analysis := none }) none [custA1]
      "loan_restructure").aiError = none :=
  unknown_issueType_empty (fun _ => none) 0 false (.ok { analysis := none }) none [custA1]
    "loan_restructure" (by decide)

/-- A customer with zero balance: a rule-based `account_closure` match. -/
def zeroBalanceCustomer : Customer :=
  { ACCOUNT_NO := some "SBIN1", NAME := some "Sita", BALANCE := some (.num 0) }

/-- C4 counterexample: a scoring outcome that succeeds but is malformed
(its `analysis` field is not a list) leaves the rule-based result intact
— classification does not abort — yet no auxiliary error field is
recorded (`aiError = none`), contrary to the claim that every scoring
failure is "recorded as an auxiliary error field". -/
theorem aiFailure_error_not_recorded :
    (analyze (fun _ => none) 0 true (.ok { analysis := none }) none
      [zeroBalanceCustomer] "account_closure").customers = .plain [zeroBalanceCustomer] ∧
    (analyze (fun _ => none) 0 true (.ok { analysis := none }) none
      [zeroBalanceCustomer] "account_closure").finalMatches = 1 ∧
    (analyze (fun _ => none) 0 true (.ok { analysis := none }) none
      [zeroBalanceCustomer] "account_closure").aiError = none := by
  decide

/-- C4 (amended): when the scoring collaborator fails, classification
never aborts and the analysis result is exactly the pure rule-based
result; a thrown failure (given the AI branch was actually entered, i.e.
some rule matches exist) is recorded in the auxiliary `aiError` field,
while a successful but malformed (non-list) response is ignored without
recording an error. -/
theorem ai_failure_falls_back (parseDateStr : String → Option ℤ) (now : ℤ)
    (minConfidence : Option ℚ) (customers : List Customer) (issueType : String) :
    (∀ e : String,
      filterCustomersByRule parseDateStr now customers issueType ≠ [] →
      analyze parseDateStr now true (.error e) minConfidence customers issueType =
        { totalCustomers := customers.length,
          ruleBasedMatches :=
            (filterCustomersByRule parseDateStr now customers issueType).length,
          finalMatches :=
            (filterCustomersByRule parseDateStr now customers issueType).length,
          customers := .plain (filterCustomersByRule parseDateStr now customers issueType),
          aiEnhanced := false, aiError := some e, confidence := "rule-based" }) ∧
    analyze parseDateStr now true (.ok { analysis := none }) minConfidence
        customers issueType =
      { totalCustomers := customers.length,
        ruleBasedMatches :=
          (filterCustomersByRule parseDateStr now customers issueType).length,
        finalMatches :=
          (filterCustomersByRule parseDateStr now customers issueType).length,
        customers := .plain (filterCustomersByRule parseDateStr now customers issueType),
        aiEnhanced := false, aiError := none, confidence := "rule-based" } := by
  constructor
  · intro e hne
    have hp : 0 < (filterCustomersByRule parseDateStr now customers issueType).length :=
      List.length_pos.mpr hne
    simp [analyze, hp]
  · by_cases hp : 0 < (filterCustomersByRule parseDateStr now customers issueType).length
    · simp [analyze, hp]
    · simp [analyze, hp]

/-- C4 witness: the amended theorem at a concrete thrown failure over a
one-customer list that the rule matches. -/
theorem ai_failure_falls_back_witness :
    analyze (fun _ => none) 0 true (.error "AI analysis failed: timeout") none
        [zeroBalanceCustomer] "account_closure" =
      { totalCustomers := 1, ruleBasedMatches := 1, finalMatches := 1,
        customers := .plain [zeroBalanceCustomer],
        aiEnhanced := false, aiError := some "AI analysis failed: timeout",
        confidence := "rule-based" } :=
  (ai_failure_falls_back (fun _ => none) 0 none [zeroBalanceCustomer]
    "account_closure").1 "AI analysis failed: timeout" (by decide)

/-- An AI entry for `zeroBalanceCustomer` carrying confidence 0.5, below
the default threshold. -/
def lowConfEntry : AIEntry :=
  { account_no := "SBIN1", confidence := 1 / 2, priority := "low",
    reason := "Dormant account with zero balance" }

/-- Claim C5's formula for the reported count as stated: the number of
returned customers with merged confidence ≥ `minConfidence`, defaulting
to 0.7 only when `minConfidence` is not supplied. -/
def finalMatchesClaim (minConfidence : Option ℚ)
    (enriched : List EnrichedCustomer) : ℕ :=
  (enriched.filter (fun ec => decide (minConfidence.getD (7 / 10) ≤ ec.aiConfidence))).length

/-- C5 counterexample: with `minConfidence` supplied as 0 the code's
`options.minConfidence || 0.7` still uses 0.7 (0 is falsy), so the
reported count is 0, while the claim's formula (threshold 0, a supplied
value) counts the one returned customer. -/
theorem minConfidence_zero_uses_default :
    (analyze (fun _ => none) 0 true (.ok { analysis := some [lowConfEntry] }) (some 0)
      [zeroBalanceCustomer] "account_closure").finalMatches = 0 ∧
    finalMatchesClaim (some 0)
      (getEnriched (analyze (fun _ => none) 0 true (.ok { analysis := some [lowConfEntry] })
        (some 0) [zeroBalanceCustomer] "account_closure").customers) = 1 := by
  decide

/-- C5 (amended): when scoring returns an analysis list (and the AI
branch is entered), the returned customer list is the full rule-based
match set (each merged entry projects back to its rule-based customer),
and `finalMatches` counts exactly the returned customers with merged
confidence ≥ the threshold `minConfidence || 0.7` — 0.7 whenever
`minConfidence` is absent or 0. -/
theorem ai_enhanced_counts (parseDateStr : String → Option ℤ) (now : ℤ)
    (minConfidence : Option ℚ) (customers : List Customer) (issueType : String)
    (entries : List AIEntry)
    (hne : filterCustomersByRule parseDateStr now customers issueType ≠ []) :
    (getEnriched (analyze parseDateStr now true (.ok { analysis := some entries })
        minConfidence customers issueType).customers).map (fun ec => ec.base) =
      filterCustomersByRule parseDateStr now customers issueType ∧
    (analyze parseDateStr now true (.ok { analysis := some entries })
        minConfidence customers issueType).finalMatches =
      ((getEnriched (analyze parseDateStr now true (.ok { analysis := some entries })
          minConfidence customers issueType).customers).filter
        (fun ec => decide (jsOrNum minConfidence (7 / 10) ≤ ec.aiConfidence))).length := by
  have hp : 0 < (filterCustomersByRule parseDateStr now customers issueType).length :=
    List.length_pos.mpr hne
  constructor
  · simp [analyze, hp, getEnriched, List.map_map]
    have hcomp : ((fun ec => ec.base) ∘ enrichCustomer entries) = id :=
      funext (fun c => enrichCustomer_base entries c)
    rw [hcomp, List.map_id]
  · simp [analyze, hp, getEnriched]

/-- C5 witness: the amended theorem at the concrete one-customer,
one-entry scenario. -/
theorem ai_enhanced_counts_witness :
    (getEnriched (analyze (fun _ => none) 0 true (.ok { analysis := some [lowConfEntry] })
        none [zeroBalanceCustomer] "account_closure").customers).map (fun ec => ec.base) =
      filterCustomersByRule (fun _ => none) 0 [zeroBalanceCustomer] "account_closure" ∧
    (analyze (fun _ => none) 0 true (.ok { analysis := some [lowConfEntry] })
        none [zeroBalanceCustomer] "account_closure").finalMatches =
      ((getEnriched (analyze (fun _ => none) 0 true (.ok { analysis := some [lowConfEntry] })
          none [zeroBalanceCustomer] "account_closure").customers).filter
        (fun ec => decide (jsOrNum none (7 / 10) ≤ ec.aiConfidence))).length :=
  ai_enhanced_counts (fun _ => none) 0 none [zeroBalanceCustomer] "account_closure"
    [lowConfEntry] (by decide)
